import Mathlib

/-!
Shallow embedding of src/curl/curl/src/tool_main.c (ios_system fork of the
curl tool bootstrap): the scp/sftp argument translator (scp_convert), the
lifecycle controller (main_init, free_config_fields, main_free) and the
entry dispatcher (curl_main).  External collaborators (malloc,
curl_global_init, get_libcurl_info, curl_easy_init, operate, stat) are
modelled by oracles supplying their outcomes; C strings are Lean strings,
the in-place NUL write at the colon is modelled by the token list returned
after the scan.
-/

/-- Chars of `l` strictly before the first occurrence of `c`, paired with the
chars strictly after it; `none` when `c` does not occur (models `strstr`). -/
def splitCharsAtFirst (c : Char) : List Char → Option (List Char × List Char)
  | [] => none
  | x :: xs =>
      if x = c then some ([], xs)
      else (splitCharsAtFirst c xs).map fun p => (x :: p.1, p.2)

/-- Suffix of `l` after the last occurrence of `c`; `l` itself when `c` does
not occur.  Models the C loop
`while ((position = strstr(d, "/")) != NULL) d = position + 1;`. -/
def afterLastChars (c : Char) : List Char → List Char
  | [] => []
  | x :: xs =>
      if c ∈ xs then afterLastChars c xs
      else if x = c then xs
      else x :: xs

/-- String version of `splitCharsAtFirst` at the colon: models
`position = strstr(argv[i], ":")` followed by the split at that position. -/
def splitAtFirstColon (s : String) : Option (String × String) :=
  match splitCharsAtFirst ':' s.data with
  | none => none
  | some (a, b) => some (String.mk a, String.mk b)

/-- Content of `s` after its last slash (the remote basename computation). -/
def afterLastSlash (s : String) : String :=
  String.mk (afterLastChars '/' s.data)

/-- `s` truncated at its first colon: the value left in a caller-owned token
after the C code writes a NUL terminator at the colon (`*position = 0`). -/
def truncAtColon (s : String) : String :=
  match splitAtFirstColon s with
  | none => s
  | some (a, _) => a

/-- The three resources acquired by `main_init`: the OperationConfig node
(malloc), the global engine state (curl_global_init) and the per-invocation
easy handle (curl_easy_init). -/
inductive Res where
  | node
  | engine
  | easy
deriving DecidableEq, Repr

/-- Acquisition / release events recorded while running `main_init`. -/
inductive Ev where
  | acq (r : Res)
  | rel (r : Res)
deriving DecidableEq, Repr

/-- Resources acquired in an event trace, in acquisition order. -/
def acquiredRes (evs : List Ev) : List Res :=
  evs.filterMap fun e => match e with | .acq r => some r | .rel _ => none

/-- Resources released in an event trace, in release order. -/
def releasedRes (evs : List Ev) : List Res :=
  evs.filterMap fun e => match e with | .rel r => some r | .acq _ => none

/-- struct OperationConfig: the per-transfer node; only the fields this file
touches (the easy handle slot and the back-reference to the global config). -/
structure OperationConfig where
  easy : Option Nat
  global : Bool
deriving DecidableEq, Repr

/-- struct GlobalConfig: the fields of the aggregate that tool_main.c reads
or writes; streams and handles are modelled by numeric ids. -/
structure GlobalConfig where
  showerror : Int
  errors : Option Nat
  errors_fopened : Bool
  trace_stream : Option Nat
  trace_fopened : Bool
  trace_dump : Option String
  libcurl : Option String
  first : Option OperationConfig
  last : Option OperationConfig
  easy : Option Nat
deriving DecidableEq, Repr

/-- The zero-initialized GlobalConfig (`memset(&global, 0, sizeof(global))`). -/
def zeroGlobal : GlobalConfig :=
  { showerror := 0, errors := none, errors_fopened := false,
    trace_stream := none, trace_fopened := false, trace_dump := none,
    libcurl := none, first := none, last := none, easy := none }

/-- Stream id standing for thread_stderr. -/
def stderrId : Nat := 0

/-- Handle id standing for the easy handle returned by curl_easy_init. -/
def easyId : Nat := 1

/-- CURLE_OK. -/
def CURLE_OK : Nat := 0

/-- CURLE_FAILED_INIT. -/
def CURLE_FAILED_INIT : Nat := 2

/-- Outcomes of the fallible collaborators called by `main_init`:
step (b) malloc, step (c) curl_global_init (CURLcode, 0 = success),
step (d) get_libcurl_info (CURLcode), step (e) curl_easy_init. -/
structure InitOracle where
  mallocOk : Bool
  globalInitRes : Nat
  libcurlInfoRes : Nat
  easyInitOk : Bool
deriving DecidableEq, Repr

/-- Result of `main_init`: the returned CURLcode, the GlobalConfig as left by
the function, and the acquisition/release events in execution order. -/
structure InitResult where
  result : Nat
  cfg : GlobalConfig
  events : List Ev
deriving DecidableEq, Repr

/-- main_init (tool_main.c lines 130-183).  Sets showerror and the error
stream, then: malloc the OperationConfig node; curl_global_init;
get_libcurl_info; curl_easy_init with config_init and the back-links.
Each failure branch frees only the node (`free(config->first)`); note the C
code does not null the freed pointer, so `cfg.first` keeps its value on the
failure paths. -/
def main_init (o : InitOracle) : InitResult :=
  let cfg := { zeroGlobal with showerror := -1, errors := some stderrId }
  if o.mallocOk then
    let node : OperationConfig := { easy := none, global := false }
    let cfg := { cfg with first := some node, last := some node }
    if o.globalInitRes = 0 then
      if o.libcurlInfoRes = 0 then
        if o.easyInitOk then
          let node : OperationConfig := { easy := some easyId, global := true }
          let cfg := { cfg with easy := some easyId, first := some node,
                                last := some node }
          { result := CURLE_OK, cfg := cfg,
            events := [.acq .node, .acq .engine, .acq .easy] }
        else
          { result := CURLE_FAILED_INIT, cfg := cfg,
            events := [.acq .node, .acq .engine, .rel .node] }
      else
        { result := o.libcurlInfoRes, cfg := cfg,
          events := [.acq .node, .acq .engine, .rel .node] }
    else
      { result := o.globalInitRes, cfg := cfg,
        events := [.acq .node, .rel .node] }
  else
    { result := CURLE_FAILED_INIT, cfg := cfg, events := [] }

/-- free_config_fields (tool_main.c lines 185-198): free trace_dump, close
the error and trace streams when owned, null both, free the libcurl dump. -/
def free_config_fields (c : GlobalConfig) : GlobalConfig :=
  { c with trace_dump := none, errors := none,
           trace_stream := none, libcurl := none }

/-- main_free (tool_main.c lines 204-228): curl_easy_cleanup and null the
handle, global/convert/metalink cleanup, free_config_fields, config_free on
the node chain and null first/last. -/
def main_free (c : GlobalConfig) : GlobalConfig :=
  let c := { c with easy := none }
  let c := free_config_fields c
  { c with first := none, last := none }

/-- The resource-holding fields of a GlobalConfig (handles, node pointers,
streams and owned buffers; showerror and the ownership flags are not
resources). -/
def resourceFields (c : GlobalConfig) :
    Option Nat × Option OperationConfig × Option OperationConfig ×
    Option Nat × Option Nat × Option String × Option String :=
  (c.easy, c.first, c.last, c.errors, c.trace_stream, c.trace_dump, c.libcurl)

/-- Outcomes of the collaborators used by one non-legacy run: the init
oracle and the CURLcode returned by `operate`. -/
structure RunOracle where
  init : InitOracle
  operateResult : Nat
deriving DecidableEq, Repr

/-- Observable events of one non-legacy run: whether `operate` was invoked
and how many times `main_free` ran. -/
structure RunTrace where
  operateInvoked : Bool
  mainFreeCount : Nat
deriving DecidableEq, Repr

/-- Body of curl_main after the legacy dispatch (tool_main.c lines 330-368):
zero the global config, main_init; on success run operate and then
main_free; return the captured result as the process exit code. -/
def curl_main_core (o : RunOracle) (argv : List String) : Int × RunTrace :=
  let r := main_init o.init
  if r.result = 0 then
    (Int.ofNat o.operateResult, { operateInvoked := true, mainFreeCount := 1 })
  else
    (Int.ofNat r.result, { operateInvoked := false, mainFreeCount := 0 })

/-- Scan state of the scp_convert loop: the output list built so far
(argv2), the localFileName and distantFileName trackers (distantBase holds
the basename, as left by the strstr loop), and the input tokens as the loop
leaves them in caller memory (argvOut), recording the NUL write. -/
structure ScanState where
  argv2 : List String
  localFileName : Option String
  distantBase : Option String
  argvOut : List String
deriving DecidableEq, Repr

/-- One iteration of the scp_convert loop (tool_main.c lines 253-300) on
token `tok`: flag branch (dash-initial, or both names already set) with the
-q to -s rewrite; remote branch splitting at the first colon, building
`protocol://userHost/remotePath`, truncating the input token at the colon
and keeping the basename; local branch emitting -T (upload) or
-O / -o with the directory handling (download), consulting `statIsDir` for
`stat` plus `S_ISDIR`. -/
def scpStep (protocol : String) (statIsDir : String → Bool)
    (s : ScanState) (tok : String) : ScanState :=
  if tok.data.head? = some '-' ∨ (s.distantBase.isSome ∧ s.localFileName.isSome) then
    { s with argv2 := s.argv2 ++ [if tok = "-q" then "-s" else tok],
             argvOut := s.argvOut ++ [tok] }
  else
    match splitAtFirstColon tok with
    | some (userHost, remotePath) =>
        { s with
          argv2 := s.argv2 ++ [protocol ++ "://" ++ userHost ++ "/" ++ remotePath],
          distantBase := some (afterLastSlash remotePath),
          argvOut := s.argvOut ++ [userHost] }
    | none =>
        if s.distantBase.isSome then
          if tok = "." then
            { s with argv2 := s.argv2 ++ ["-O"],
                     localFileName := some tok, argvOut := s.argvOut ++ [tok] }
          else if tok.data.getLast? = some '/' then
            { s with argv2 := s.argv2 ++ ["-o", tok ++ s.distantBase.getD ""],
                     localFileName := some tok, argvOut := s.argvOut ++ [tok] }
          else if statIsDir tok then
            { s with argv2 := s.argv2 ++ ["-o", tok ++ "/" ++ s.distantBase.getD ""],
                     localFileName := some tok, argvOut := s.argvOut ++ [tok] }
          else
            { s with argv2 := s.argv2 ++ ["-o", tok],
                     localFileName := some tok, argvOut := s.argvOut ++ [tok] }
        else
          { s with argv2 := s.argv2 ++ ["-T", tok],
                   localFileName := some tok, argvOut := s.argvOut ++ [tok] }

/-- Scan state before the loop: argv2 holds "curl" at index 0, both name
trackers are NULL, no token processed yet. -/
def scpInitState : ScanState :=
  { argv2 := ["curl"], localFileName := none, distantBase := none, argvOut := [] }

/-- End-of-loop state of scp_convert on the tokens after the alias. -/
def scanFinal (statIsDir : String → Bool) (protocol : String)
    (tokens : List String) : ScanState :=
  tokens.foldl (scpStep protocol statIsDir) scpInitState

/-- Spec-side characterization of the amended mutation claim: the value one
caller-owned token holds after its scan iteration.  A token classified as a
flag (dash-initial, or scanned when both file names are already known) is
unchanged; a non-flag token containing a colon is the RemotePathSpec case
and is truncated at its first colon; a non-flag token without a colon is
unchanged.  The classification mirrors the branch conditions of scpStep. -/
def tokenAfterScan (s : ScanState) (tok : String) : String :=
  if tok.data.head? = some '-' ∨ (s.distantBase.isSome ∧ s.localFileName.isSome) then
    tok
  else if (splitAtFirstColon tok).isSome then truncAtColon tok
  else tok

/-- Spec-side characterization over the whole token list: each token maps
through `tokenAfterScan` at the scan state reached when it is processed,
the state advancing by the source step function. -/
def tokensAfterScan (p : String) (st : String → Bool) (s : ScanState) :
    List String → List String
  | [] => []
  | tok :: ts => tokenAfterScan s tok :: tokensAfterScan p st (scpStep p st s tok) ts

/-- First usage line printed by scp_convert on validation failure. -/
def usageLine1 (protocol : String) : String :=
  "Usage:\t" ++ protocol ++ " [-q] [user@]host:distantFile localFile\n"

/-- Second usage line printed by scp_convert on validation failure. -/
def usageLine2 (protocol : String) : String :=
  "\t" ++ protocol ++ " [-q] localFile [user@]host:distantFile \n"

/-- Observable outcome of scp_convert: the argv2 list built (before the NULL
terminator slot), the input argv as left after the scan (alias first), the
lines written to the error stream, whether the canonical entry point was
invoked, its trace, and the return value. -/
structure ConvertResult where
  argv2 : List String
  argvFinal : List String
  stderrLines : List String
  delegated : Bool
  trace : RunTrace
  returnValue : Int
deriving DecidableEq, Repr

/-- scp_convert (tool_main.c lines 245-316): build argv2 by the scan loop;
if localFileName or distantFileName is missing print the two usage lines
and return -1 without delegating; otherwise delegate to curl_main (whose
translated argv starts with "curl", hence the non-legacy body) and return
its result.  The argv2 entries are freed afterwards in both cases. -/
def scp_convert (statIsDir : String → Bool) (o : RunOracle)
    (protocol : String) (tokens : List String) : ConvertResult :=
  let s := scanFinal statIsDir protocol tokens
  if s.localFileName.isSome ∧ s.distantBase.isSome then
    { argv2 := s.argv2, argvFinal := protocol :: s.argvOut,
      stderrLines := [],
      delegated := true, trace := (curl_main_core o s.argv2).2,
      returnValue := (curl_main_core o s.argv2).1 }
  else
    { argv2 := s.argv2, argvFinal := protocol :: s.argvOut,
      stderrLines := [usageLine1 protocol, usageLine2 protocol],
      delegated := false,
      trace := { operateInvoked := false, mainFreeCount := 0 },
      returnValue := -1 }

/-- curl_main (tool_main.c lines 323-369): when argv[0] is "scp" or "sftp"
rewrite the arguments through scp_convert, otherwise run the main body. -/
def curl_main (statIsDir : String → Bool) (o : RunOracle)
    (argv : List String) : Int × RunTrace :=
  if argv.head? = some "scp" ∨ argv.head? = some "sftp" then
    let r := scp_convert statIsDir o (argv.headD "") argv.tail
    (r.returnValue, r.trace)
  else
    curl_main_core o argv

/-- C1 as claimed: whenever main_init fails, the released resources are
exactly the acquired ones, in reverse acquisition order. -/
def initFailureReleasesReverse (o : InitOracle) : Prop :=
  (main_init o).result ≠ 0 →
    releasedRes (main_init o).events = (acquiredRes (main_init o).events).reverse

/-- C3 as claimed: translation leaves every caller-owned input token
byte-for-byte unchanged. -/
def inputTokensPreserved (statIsDir : String → Bool) (o : RunOracle)
    (protocol : String) (tokens : List String) : Prop :=
  (scp_convert statIsDir o protocol tokens).argvFinal = protocol :: tokens

/-- C4 as claimed: when the scan ends without a local path or without a
remote endpoint, scp_convert returns -1, prints the two usage lines, does
not delegate, and constructs no output list at all. -/
def usageFailureNoOutputList (statIsDir : String → Bool) (o : RunOracle)
    (protocol : String) (tokens : List String) : Prop :=
  ((scanFinal statIsDir protocol tokens).localFileName = none ∨
      (scanFinal statIsDir protocol tokens).distantBase = none) →
    (scp_convert statIsDir o protocol tokens).returnValue = -1 ∧
    (scp_convert statIsDir o protocol tokens).stderrLines
        = [usageLine1 protocol, usageLine2 protocol] ∧
    (scp_convert statIsDir o protocol tokens).delegated = false ∧
    (scp_convert statIsDir o protocol tokens).argv2 = []

/-- stat oracle under which no path is an existing directory. -/
def stat0 : String → Bool := fun _ => false

/-- Run oracle with every init step succeeding and operate returning 0. -/
def o0 : RunOracle :=
  { init := { mallocOk := true, globalInitRes := 0, libcurlInfoRes := 0,
              easyInitOk := true },
    operateResult := 0 }

/-- Init oracle failing at step (d): get_libcurl_info returns 6. -/
def oInfoFail : InitOracle :=
  { mallocOk := true, globalInitRes := 0, libcurlInfoRes := 6, easyInitOk := true }

/-- Run oracle whose init fails at step (c): curl_global_init returns 7. -/
def oRunFail : RunOracle :=
  { init := { mallocOk := true, globalInitRes := 7, libcurlInfoRes := 0,
              easyInitOk := true },
    operateResult := 0 }

/-- Run oracle with successful init and operate returning 42. -/
def oRun42 : RunOracle :=
  { init := { mallocOk := true, globalInitRes := 0, libcurlInfoRes := 0,
              easyInitOk := true },
    operateResult := 42 }

theorem splitCharsAtFirst_eq (c : Char) (l : List Char) :
    ∀ a b, splitCharsAtFirst c l = some (a, b) → l = a ++ c :: b ∧ c ∉ a := by
  induction l with
  | nil => intro a b h; simp [splitCharsAtFirst] at h
  | cons x xs ih =>
      intro a b h
      unfold splitCharsAtFirst at h
      by_cases hx : x = c
      · rw [if_pos hx] at h
        simp only [Option.some.injEq, Prod.mk.injEq] at h
        obtain ⟨ha, hb⟩ := h
        subst ha; subst hb; subst hx
        exact ⟨rfl, List.not_mem_nil _⟩
      · rw [if_neg hx] at h
        cases hm : splitCharsAtFirst c xs with
        | none => rw [hm] at h; cases h
        | some q =>
            obtain ⟨a1, b1⟩ := q
            rw [hm] at h
            simp only [Option.map_some', Option.some.injEq, Prod.mk.injEq] at h
            obtain ⟨ha, hb⟩ := h
            obtain ⟨h1, h2⟩ := ih a1 b1 hm
            subst ha; subst hb; subst h1
            refine ⟨rfl, ?_⟩
            simp only [List.mem_cons, not_or]
            exact ⟨fun hc => hx hc.symm, h2⟩

theorem splitAtFirstColon_eq {tok userHost remotePath : String}
    (h : splitAtFirstColon tok = some (userHost, remotePath)) :
    splitCharsAtFirst ':' tok.data = some (userHost.data, remotePath.data) := by
  unfold splitAtFirstColon at h
  cases hm : splitCharsAtFirst ':' tok.data with
  | none => rw [hm] at h; cases h
  | some q =>
      obtain ⟨a, b⟩ := q
      rw [hm] at h
      simp only [Option.some.injEq, Prod.mk.injEq] at h
      obtain ⟨h1, h2⟩ := h
      rw [← h1, ← h2]

theorem scpStep_ext (p : String) (st : String → Bool) (s : ScanState) (tok : String) :
    ∃ em out, (scpStep p st s tok).argv2 = s.argv2 ++ em ∧
      (scpStep p st s tok).argvOut = s.argvOut ++ [out] ∧
      (out = tok ∨ out = truncAtColon tok) := by
  unfold scpStep
  by_cases h1 : tok.data.head? = some '-' ∨ (s.distantBase.isSome ∧ s.localFileName.isSome)
  · rw [if_pos h1]; exact ⟨_, _, rfl, rfl, Or.inl rfl⟩
  · rw [if_neg h1]
    cases hm : splitAtFirstColon tok with
    | some q =>
        obtain ⟨uh, rp⟩ := q
        simp only [hm]
        exact ⟨_, uh, rfl, rfl, Or.inr (by simp [truncAtColon, hm])⟩
    | none =>
        simp only [hm]
        by_cases h2 : s.distantBase.isSome
        · rw [if_pos h2]
          by_cases h3 : tok = "."
          · rw [if_pos h3]; exact ⟨_, _, rfl, rfl, Or.inl rfl⟩
          · rw [if_neg h3]
            by_cases h4 : tok.data.getLast? = some '/'
            · rw [if_pos h4]; exact ⟨_, _, rfl, rfl, Or.inl rfl⟩
            · rw [if_neg h4]
              by_cases h5 : st tok
              · rw [if_pos h5]; exact ⟨_, _, rfl, rfl, Or.inl rfl⟩
              · rw [if_neg h5]; exact ⟨_, _, rfl, rfl, Or.inl rfl⟩
        · rw [if_neg h2]; exact ⟨_, _, rfl, rfl, Or.inl rfl⟩

theorem scan_foldl_ext (p : String) (st : String → Bool) :
    ∀ (tokens : List String) (s : ScanState),
      ∃ em outs, (tokens.foldl (scpStep p st) s).argv2 = s.argv2 ++ em ∧
        (tokens.foldl (scpStep p st) s).argvOut = s.argvOut ++ outs ∧
        List.Forall₂ (fun i o => o = i ∨ o = truncAtColon i) tokens outs := by
  intro tokens
  induction tokens with
  | nil => intro s; exact ⟨[], [], by simp, by simp, List.Forall₂.nil⟩
  | cons t ts ih =>
      intro s
      obtain ⟨em1, out1, h1, h2, h3⟩ := scpStep_ext p st s t
      obtain ⟨em2, outs2, g1, g2, g3⟩ := ih (scpStep p st s t)
      refine ⟨em1 ++ em2, out1 :: outs2, ?_, ?_, List.Forall₂.cons h3 g3⟩
      · rw [List.foldl_cons, g1, h1, List.append_assoc]
      · rw [List.foldl_cons, g2, h2]; simp

theorem scpStep_argvOut (p : String) (st : String → Bool) (s : ScanState)
    (tok : String) :
    (scpStep p st s tok).argvOut = s.argvOut ++ [tokenAfterScan s tok] := by
  unfold scpStep tokenAfterScan
  by_cases h1 : tok.data.head? = some '-' ∨ (s.distantBase.isSome ∧ s.localFileName.isSome)
  · rw [if_pos h1, if_pos h1]
  · rw [if_neg h1, if_neg h1]
    cases hm : splitAtFirstColon tok with
    | some q =>
        obtain ⟨uh, rp⟩ := q
        simp [truncAtColon, hm]
    | none =>
        simp only [hm, Option.isSome_none]
        rw [if_neg Bool.false_ne_true]
        by_cases h2 : s.distantBase.isSome
        · rw [if_pos h2]
          by_cases h3 : tok = "."
          · rw [if_pos h3]
          · rw [if_neg h3]
            by_cases h4 : tok.data.getLast? = some '/'
            · rw [if_pos h4]
            · rw [if_neg h4]
              by_cases h5 : st tok
              · rw [if_pos h5]
              · rw [if_neg h5]
        · rw [if_neg h2]

theorem scan_argvOut_eq (p : String) (st : String → Bool) :
    ∀ (tokens : List String) (s : ScanState),
      (tokens.foldl (scpStep p st) s).argvOut
        = s.argvOut ++ tokensAfterScan p st s tokens := by
  intro tokens
  induction tokens with
  | nil => intro s; simp [tokensAfterScan]
  | cons t ts ih =>
      intro s
      rw [List.foldl_cons, ih (scpStep p st s t), scpStep_argvOut]
      simp [tokensAfterScan]

theorem truncAtColon_shortens (tok : String) :
    (splitAtFirstColon tok).isSome = true ↔
      (truncAtColon tok).length < tok.length := by
  constructor
  · intro h
    cases hm : splitAtFirstColon tok with
    | none => rw [hm] at h; cases h
    | some q =>
        obtain ⟨uh, rp⟩ := q
        obtain ⟨heq, _⟩ :=
          splitCharsAtFirst_eq ':' tok.data uh.data rp.data
            (splitAtFirstColon_eq hm)
        have ht : truncAtColon tok = uh := by simp [truncAtColon, hm]
        rw [ht]
        show uh.data.length < tok.data.length
        rw [heq]
        simp only [List.length_append, List.length_cons]
        omega
  · intro h
    cases hm : splitAtFirstColon tok with
    | some q => rfl
    | none =>
        have ht : truncAtColon tok = tok := by simp [truncAtColon, hm]
        rw [ht] at h
        exact absurd h (lt_irrefl _)

/-- C1: refuted as stated.  When get_libcurl_info fails (step d), the node
and the engine global state have been acquired, but the failure branch only
frees the node (`free(config->first)`); the releases are not the reverse of
the acquisitions. -/
theorem init_failure_reverse_release_refuted :
    ¬ initFailureReleasesReverse oInfoFail := by
  unfold initFailureReleasesReverse
  decide

/-- C1 (amended): every failure branch of main_init releases only the
OperationConfig node, and only when it was acquired at step (b); the engine
global state and the easy handle are never released by init failure
branches, so there is no double release and no touch of a resource that was
not acquired, but the engine global initialization leaks at steps (d), (e). -/
theorem init_failure_releases_node_only (o : InitOracle)
    (h : (main_init o).result ≠ 0) :
    releasedRes (main_init o).events =
      (if Res.node ∈ acquiredRes (main_init o).events then [Res.node] else []) ∧
    Res.engine ∉ releasedRes (main_init o).events ∧
    Res.easy ∉ releasedRes (main_init o).events := by
  obtain ⟨mb, gi, li, ez⟩ := o
  by_cases h1 : mb <;> by_cases h2 : gi = 0 <;> by_cases h3 : li = 0 <;>
    by_cases h4 : ez <;>
      simp_all [main_init, acquiredRes, releasedRes, CURLE_OK, CURLE_FAILED_INIT]

/-- Witness for the amended C1 theorem at the step (d) failure oracle. -/
theorem init_failure_releases_node_only_witness :
    (main_init oInfoFail).result ≠ 0 ∧
    (releasedRes (main_init oInfoFail).events =
      (if Res.node ∈ acquiredRes (main_init oInfoFail).events then [Res.node]
       else []) ∧
     Res.engine ∉ releasedRes (main_init oInfoFail).events ∧
     Res.easy ∉ releasedRes (main_init oInfoFail).events) :=
  ⟨by decide, init_failure_releases_node_only oInfoFail (by decide)⟩

/-- C2: evaluation of scp_convert at the upload example.  The translated
list carries the URL `scp://user@host//remote/path/` as produced by the
asprintf, without the local file name appended, although the conversion
comment in tool_main.c (line 236) documents
`scp localFile user@host:~/path/  =>  curl -T localFile
scp://user@host/~/path/localFile`. -/
theorem upload_url_omits_local_basename :
    (scp_convert stat0 o0 "scp" ["localfile.txt", "user@host:/remote/path/"]).argv2
        = ["curl", "-T", "localfile.txt", "scp://user@host//remote/path/"] ∧
    "scp://user@host//remote/path/localfile.txt" ∉
      (scp_convert stat0 o0 "scp"
        ["localfile.txt", "user@host:/remote/path/"]).argv2 := by
  constructor
  · rfl
  · decide

/-- C3: refuted as stated.  The remote token `user@host:/a/b` is left
truncated to `user@host` in caller memory after the scan, because the code
writes a NUL terminator at the colon (`*position = 0`). -/
theorem input_tokens_preserved_refuted :
    ¬ inputTokensPreserved stat0 o0 "scp" ["user@host:/a/b", "out.txt"] := by
  unfold inputTokensPreserved
  decide

/-- C3 (amended): the input argv after translation is exactly the alias
unchanged followed by the tokens mapped through the mutation
characterization `tokensAfterScan`: a token consumed as a RemotePathSpec
(non-flag, containing a colon, scanned before both names are known) is
truncated in place at its first colon to its userHost prefix, and every
other token — flag tokens even when they contain a colon, and colon-free
tokens — is byte-for-byte unchanged.  The second conjunct makes the
truncation strict: exactly the colon-containing tokens become strictly
shorter under the truncation, so each RemotePathSpec token really is
mutated. -/
theorem input_tokens_truncated_at_colon (st : String → Bool) (o : RunOracle)
    (protocol : String) (tokens : List String) :
    (scp_convert st o protocol tokens).argvFinal
        = protocol :: tokensAfterScan protocol st scpInitState tokens ∧
    ∀ tok : String,
      (splitAtFirstColon tok).isSome = true ↔
        (truncAtColon tok).length < tok.length := by
  refine ⟨?_, truncAtColon_shortens⟩
  have hfin : (scp_convert st o protocol tokens).argvFinal
      = protocol :: (scanFinal st protocol tokens).argvOut := by
    simp only [scp_convert]
    split <;> rfl
  rw [hfin]
  unfold scanFinal
  rw [scan_argvOut_eq protocol st tokens scpInitState]
  simp [scpInitState]

/-- C4: refuted as stated.  On the empty token list validation fails with
the usage message and without delegation, but an output list is
nevertheless constructed: argv2 already holds the translated program name
"curl" (the code mallocs argv2 and fills it before validating). -/
theorem usage_failure_no_list_refuted :
    ¬ usageFailureNoOutputList stat0 o0 "scp" [] := by
  unfold usageFailureNoOutputList
  decide

/-- C4 (amended): when the scan ends without a local path or without a
remote endpoint, scp_convert returns -1, writes the two usage lines
(download form then upload form) to the error stream, and does not invoke
the delegated canonical entry point; a translated list beginning with
"curl" is nevertheless constructed (and then released). -/
theorem usage_failure_reports_and_skips_delegate (st : String → Bool)
    (o : RunOracle) (protocol : String) (tokens : List String)
    (h : (scanFinal st protocol tokens).localFileName = none ∨
         (scanFinal st protocol tokens).distantBase = none) :
    (scp_convert st o protocol tokens).returnValue = -1 ∧
    (scp_convert st o protocol tokens).stderrLines
        = [usageLine1 protocol, usageLine2 protocol] ∧
    (scp_convert st o protocol tokens).delegated = false ∧
    (scp_convert st o protocol tokens).argv2.head? = some "curl" := by
  have hc : ¬ ((scanFinal st protocol tokens).localFileName.isSome ∧
               (scanFinal st protocol tokens).distantBase.isSome) := by
    rintro ⟨hl, hd⟩
    rcases h with h | h
    · rw [h] at hl; cases hl
    · rw [h] at hd; cases hd
  obtain ⟨em, outs, h1, h2, h3⟩ := scan_foldl_ext protocol st tokens scpInitState
  have ha : (scanFinal st protocol tokens).argv2 = "curl" :: em := by
    unfold scanFinal
    rw [h1]
    simp [scpInitState]
  simp only [scp_convert]
  rw [if_neg hc]
  exact ⟨rfl, rfl, rfl, by rw [ha]; rfl⟩

/-- Witness for the amended C4 theorem on the empty token list. -/
theorem usage_failure_reports_and_skips_delegate_witness :
    ((scanFinal stat0 "scp" []).localFileName = none ∨
     (scanFinal stat0 "scp" []).distantBase = none) ∧
    ((scp_convert stat0 o0 "scp" []).returnValue = -1 ∧
     (scp_convert stat0 o0 "scp" []).stderrLines
         = [usageLine1 "scp", usageLine2 "scp"] ∧
     (scp_convert stat0 o0 "scp" []).delegated = false ∧
     (scp_convert stat0 o0 "scp" []).argv2.head? = some "curl") :=
  ⟨by decide, usage_failure_reports_and_skips_delegate stat0 o0 "scp" [] (by decide)⟩

/-- C5: after a successful main_init, main_free leaves every resource field
of the GlobalConfig equal to its zero-initialized value. -/
theorem teardown_resets_resource_fields (o : InitOracle)
    (h : (main_init o).result = 0) :
    resourceFields (main_free (main_init o).cfg) = resourceFields zeroGlobal := by
  simp [main_free, free_config_fields, resourceFields, zeroGlobal]

/-- Witness for the C5 theorem at the all-success oracle. -/
theorem teardown_resets_resource_fields_witness :
    (main_init o0.init).result = 0 ∧
    resourceFields (main_free (main_init o0.init).cfg)
        = resourceFields zeroGlobal :=
  ⟨by decide, teardown_resets_resource_fields o0.init (by decide)⟩

/-- C6: on a non-legacy argv, operate is invoked iff main_init returned 0,
and when main_init fails curl_main returns that CURLcode as the exit code
with operate never invoked. -/
theorem operate_iff_init_ok (st : String → Bool) (o : RunOracle)
    (argv : List String)
    (h : ¬ (argv.head? = some "scp" ∨ argv.head? = some "sftp")) :
    ((curl_main st o argv).2.operateInvoked = true ↔
        (main_init o.init).result = 0) ∧
    ((main_init o.init).result ≠ 0 →
      (curl_main st o argv).1 = Int.ofNat (main_init o.init).result ∧
      (curl_main st o argv).2.operateInvoked = false) := by
  unfold curl_main
  rw [if_neg h]
  simp only [curl_main_core]
  by_cases hi : (main_init o.init).result = 0
  · rw [if_pos hi]
    exact ⟨⟨fun _ => hi, fun _ => rfl⟩, fun hne => absurd hi hne⟩
  · rw [if_neg hi]
    refine ⟨⟨fun hx => absurd hx Bool.false_ne_true, fun hx => absurd hx hi⟩, ?_⟩
    intro _
    exact ⟨rfl, rfl⟩

/-- Witness for the C6 theorem: non-legacy argv with init failing at
curl_global_init (code 7). -/
theorem operate_iff_init_ok_witness :
    (¬ ((["curl", "http://x"] : List String).head? = some "scp" ∨
        (["curl", "http://x"] : List String).head? = some "sftp")) ∧
    (((curl_main stat0 oRunFail ["curl", "http://x"]).2.operateInvoked = true ↔
        (main_init oRunFail.init).result = 0) ∧
     ((main_init oRunFail.init).result ≠ 0 →
       (curl_main stat0 oRunFail ["curl", "http://x"]).1
           = Int.ofNat (main_init oRunFail.init).result ∧
       (curl_main stat0 oRunFail ["curl", "http://x"]).2.operateInvoked
           = false)) :=
  ⟨by decide, operate_iff_init_ok stat0 oRunFail ["curl", "http://x"] (by decide)⟩

/-- C7: on a non-legacy argv with successful init, main_free runs exactly
once whatever operate returns, and the operate result is returned verbatim
as the exit code. -/
theorem teardown_once_and_result_propagated (st : String → Bool)
    (o : RunOracle) (argv : List String)
    (h : ¬ (argv.head? = some "scp" ∨ argv.head? = some "sftp"))
    (hi : (main_init o.init).result = 0) :
    (curl_main st o argv).2.mainFreeCount = 1 ∧
    (curl_main st o argv).1 = Int.ofNat o.operateResult := by
  unfold curl_main
  rw [if_neg h]
  simp only [curl_main_core]
  rw [if_pos hi]
  exact ⟨rfl, rfl⟩

/-- Witness for the C7 theorem: successful init, operate returning 42. -/
theorem teardown_once_and_result_propagated_witness :
    (¬ ((["curl", "http://x"] : List String).head? = some "scp" ∨
        (["curl", "http://x"] : List String).head? = some "sftp")) ∧
    (main_init oRun42.init).result = 0 ∧
    ((curl_main stat0 oRun42 ["curl", "http://x"]).2.mainFreeCount = 1 ∧
     (curl_main stat0 oRun42 ["curl", "http://x"]).1 = Int.ofNat 42) :=
  ⟨by decide, by decide,
   teardown_once_and_result_propagated stat0 oRun42 ["curl", "http://x"]
     (by decide) (by decide)⟩

/-- C8: a non-flag token containing a colon, scanned while no remote
endpoint is known yet, is split at its first colon (the prefix has no
colon) into userHost and remotePath; the step emits exactly the URL token
`protocol://userHost/remotePath` and records the content of remotePath
after its last slash as the remote basename, truncating the input token to
userHost. -/
theorem remote_token_split_emits_url (protocol : String) (st : String → Bool)
    (s : ScanState) (tok userHost remotePath : String)
    (hnf : ¬ tok.data.head? = some '-')
    (hnd : s.distantBase = none)
    (hsp : splitAtFirstColon tok = some (userHost, remotePath)) :
    scpStep protocol st s tok =
      { s with
        argv2 := s.argv2 ++ [protocol ++ "://" ++ userHost ++ "/" ++ remotePath],
        distantBase := some (afterLastSlash remotePath),
        argvOut := s.argvOut ++ [userHost] } ∧
    tok.data = userHost.data ++ ':' :: remotePath.data ∧
    ':' ∉ userHost.data := by
  obtain ⟨heq, hnotmem⟩ :=
    splitCharsAtFirst_eq ':' tok.data userHost.data remotePath.data
      (splitAtFirstColon_eq hsp)
  refine ⟨?_, heq, hnotmem⟩
  have hcond : ¬ (tok.data.head? = some '-' ∨
      (s.distantBase.isSome ∧ s.localFileName.isSome)) := by
    rintro (hc | ⟨hd, _⟩)
    · exact hnf hc
    · rw [hnd] at hd; cases hd
  unfold scpStep
  rw [if_neg hcond, hsp]

/-- Witness for the C8 theorem at the download example token. -/
theorem remote_token_split_emits_url_witness :
    (¬ ("user@host:/a/b/c.txt" : String).data.head? = some '-') ∧
    scpInitState.distantBase = none ∧
    splitAtFirstColon "user@host:/a/b/c.txt" = some ("user@host", "/a/b/c.txt") ∧
    (scpStep "scp" stat0 scpInitState "user@host:/a/b/c.txt" =
      { scpInitState with
        argv2 := scpInitState.argv2 ++
          ["scp" ++ "://" ++ "user@host" ++ "/" ++ "/a/b/c.txt"],
        distantBase := some (afterLastSlash "/a/b/c.txt"),
        argvOut := scpInitState.argvOut ++ ["user@host"] } ∧
     ("user@host:/a/b/c.txt" : String).data
         = ("user@host" : String).data ++ ':' :: ("/a/b/c.txt" : String).data ∧
     ':' ∉ ("user@host" : String).data) :=
  ⟨by decide, rfl, by decide,
   remote_token_split_emits_url "scp" stat0 scpInitState "user@host:/a/b/c.txt"
     "user@host" "/a/b/c.txt" (by decide) rfl (by decide)⟩

/-- C9: the quiet flag -q is rewritten to -s (and -q does not survive), and
the slash-terminated local path makes the download emit -o with the local
path concatenated with the remote basename; the whole translated list is
computed, under every stat oracle. -/
theorem quiet_flag_rewritten_download_dir (st : String → Bool) :
    (scp_convert st o0 "scp" ["-q", "user@host:/a/b/c.txt", "out/"]).argv2
        = ["curl", "-s", "scp://user@host//a/b/c.txt", "-o", "out/c.txt"] ∧
    "-q" ∉ (scp_convert st o0 "scp" ["-q", "user@host:/a/b/c.txt", "out/"]).argv2 := by
  have he : (scp_convert st o0 "scp" ["-q", "user@host:/a/b/c.txt", "out/"]).argv2
      = ["curl", "-s", "scp://user@host//a/b/c.txt", "-o", "out/c.txt"] := rfl
  refine ⟨he, ?_⟩
  rw [he]
  decide

/-- C10: refuted bound.  With two positional local tokens and no remote
token, argv = ["scp", "a", "b"] (argc = 3), the loop emits a -T pair for
each local token: six pointer slots are written counting the NULL
terminator, exceeding the malloc of argc + 2 = 5 pointers. -/
theorem argv2_capacity_exceeded :
    (scp_convert stat0 o0 "scp" ["a", "b"]).argv2
        = ["curl", "-T", "a", "-T", "b"] ∧
    (scp_convert stat0 o0 "scp" ["a", "b"]).argv2.length + 1 = 6 ∧
    ¬ ((scp_convert stat0 o0 "scp" ["a", "b"]).argv2.length + 1 ≤
        (("scp" :: ["a", "b"]) : List String).length + 2) := by
  refine ⟨rfl, rfl, ?_⟩
  decide
